import Mathlib

/-!
Verification development for the Routes WSGI middleware
(`routes/middleware.py`).

The middleware's request environment (a Python dict) is embedded as a
record holding the fields the middleware reads or writes, plus an
`other` association list for every remaining key.  The opaque external
collaborators (the pattern-matching mapper, the webob query/form
parsers, the URL generator constructor, and the wrapped application)
are taken as function parameters, exactly as the spec declares them
out of scope.  `RoutesMiddleware.call` mirrors `__call__` line by
line; ghost fields of `MWResult` record the environment used for
matching and the recorded original method so that ordering properties
can be stated.
-/

/-- A match-result variable dictionary (`match` in the source): a
string-keyed mapping of extracted path variables. -/
abbrev RMatch := List (String × String)

/-- A URL generator object: callable with a route name and keyword
variables, producing a path string (`url(route_name, **match)`). -/
abbrev URLGen := String → RMatch → String

/-- A registered route as the middleware observes it: a process-stable
identity (Python `id(route)`), the `redirect` flag and the
`redirect_status` attribute. -/
structure Route where
  rid : Nat
  redirect : Bool
  redirect_status : String
  deriving DecidableEq

/-- The WSGI request environment.  Named fields are the keys the
middleware itself reads or writes (`REQUEST_METHOD`, `PATH_INFO`,
`SCRIPT_NAME`, `QUERY_STRING`, `CONTENT_TYPE`, and the three published
keys `wsgiorg.routing_args`, `routes.route`, `routes.url`); `other`
holds every unrelated key of the dict.  `Option` marks keys that may
be absent. -/
structure Environ where
  REQUEST_METHOD : String
  PATH_INFO : String
  SCRIPT_NAME : String
  QUERY_STRING : Option String
  CONTENT_TYPE : Option String
  routing_args : Option (URLGen × RMatch)
  routes_route : Option (Option Route)
  routes_url : Option URLGen
  other : List (String × String)

/-- The route table ("mapper"): opaque matching service
`routematch(environ) -> (match_dict, route) | None`. -/
structure Mapper where
  routematch : Environ → Option (RMatch × Route)

/-- A WSGI response as observed by the host: status line, headers and
body chunks. -/
structure WSGIResponse where
  status : String
  headers : List (String × String)
  body : List String
  deriving DecidableEq

/-- The opaque external collaborators of the middleware: webob's
query-string parser (`Request(environ).GET`), webob's form-body parser
(`Request(environ).POST`), and the `URLGenerator` constructor. -/
structure Collab where
  reqGET : String → RMatch
  reqPOST : Environ → RMatch
  urlGenerator : Mapper → Environ → URLGen

/-- The middleware object (`RoutesMiddleware.__init__`): the wrapped
application, the mapper, and the three configuration flags with their
defaults.  The wrapped application may either return a response or
raise (modelled by `Except`). -/
structure RoutesMiddleware where
  app : Environ → Except String WSGIResponse
  mapper : Mapper
  use_method_override : Bool := true
  path_info : Bool := true
  singleton : Bool := true

/-- Everything observable about one middleware invocation: the request
environment after the middleware's own mutations, the mapper's
environ binding at exit, whether the wrapped app ran, the response (or
the propagated exception), plus two ghost fields: the environment
value in force while route matching ran, and the `old_method` the
override logic recorded. -/
structure MWResult where
  env : Environ
  binding : Option Environ
  appCalled : Bool
  response : Except String WSGIResponse
  envForMatch : Environ
  oldMethodRecorded : Option String

/- ## String helpers mirroring the Python primitives used -/

/-- Substring test on char lists: Python's `needle in haystack`. -/
def containsSub (l pat : List Char) : Bool :=
  pat.isPrefixOf l ||
    match l with
    | [] => false
    | _ :: t => containsSub t pat

/-- Python's substring containment `pat in s` for strings. -/
def strContains (s pat : String) : Bool :=
  containsSub s.data pat.data

/-- Python's `s.lower()` (per-character lowering). -/
def strLower (s : String) : String :=
  String.mk (s.data.map Char.toLower)

/-- Python's `s.upper()` (per-character raising). -/
def strUpper (s : String) : String :=
  String.mk (s.data.map Char.toUpper)

/-- Python's `s.startswith(pat)`. -/
def strStartsWith (s pat : String) : Bool :=
  pat.data.isPrefixOf s.data

/-- `content_type.split(';', 1)[0]`: the characters before the first
`';'`. -/
def beforeSemicolon (s : String) : String :=
  String.mk (s.data.takeWhile (fun c => !(c = ';')))

/- ## The regex `re.sub(r'^(.*?)/' + re.escape(newpath) + '$', r'\1', oldpath)` -/

/-- One anchored attempt of the pattern `^(.*?)/NEWPATH$` against `s`:
succeeds when `s` ends with `'/' :: np` and the group-1 text before it
contains no newline (`.` does not match a newline), returning that
text. -/
def reSubTryAt (np : List Char) (s : List Char) : Option (List Char) :=
  let suffix := '/' :: np
  if decide (suffix <:+ s) then
    let pre := s.take (s.length - suffix.length)
    if decide ('\n' ∈ pre) then none else some pre
  else none

/-- Python's `re.sub(r'^(.*?)/' + re.escape(newpath) + '$', r'\1',
oldpath)` on char lists.  `$` also matches just before a trailing
newline, and the non-greedy group prefers that (shorter) match, so the
before-trailing-newline attempt is tried first; when neither position
matches, `re.sub` returns the string unchanged. -/
def reSubPathStripL (np old : List Char) : List Char :=
  let case2 :=
    if decide (old.getLast? = some '\n') then
      (reSubTryAt np old.dropLast).map (fun p => p ++ ['\n'])
    else none
  match case2 with
  | some r => r
  | none =>
    match reSubTryAt np old with
    | some r => r
    | none => old

/-- String-level wrapper for `reSubPathStripL`. -/
def reSubPathStrip (np old : String) : String :=
  String.mk (reSubPathStripL np.data old.data)

/- ## The middleware stages (`RoutesMiddleware.__call__`, middleware.py 52-163) -/

/-- `qs = environ['QUERY_STRING']` with the `KeyError` fallback to
`''` (middleware.py 61-68). -/
def qsOf (env : Environ) : String :=
  env.QUERY_STRING.getD ""

/-- `is_form_post(environ)` (middleware.py 166-172): the lower-cased
content type, with any `';'`-suffixed parameters discarded, must be
exactly one of the two form content types. -/
def is_form_post (env : Environ) : Bool :=
  let ct0 := strLower (env.CONTENT_TYPE.getD "")
  let ct := if strContains ct0 ";" then beforeSemicolon ct0 else ct0
  ct = "application/x-www-form-urlencoded" || ct = "multipart/form-data"

/-- The method-override block (middleware.py 55-90): returns the
recorded `old_method` and the (possibly method-mutated) environment.
`req.errors = 'ignore'` and the `KeyError` guard are reflected in the
parsers being total functions. -/
def methodOverrideStage (use_method_override : Bool) (c : Collab)
    (env : Environ) : Option String × Environ :=
  if use_method_override then
    if strContains (qsOf env) "_method" then
      match (c.reqGET (qsOf env)).lookup "_method" with
      | some v => (some env.REQUEST_METHOD, { env with REQUEST_METHOD := strUpper v })
      | none => (none, env)
    else if env.REQUEST_METHOD = "POST" && is_form_post env then
      match (c.reqPOST env).lookup "_method" with
      | some v => (some env.REQUEST_METHOD, { env with REQUEST_METHOD := strUpper v })
      | none => (none, env)
    else (none, env)
  else (none, env)

/-- Direct-match mode (middleware.py 105-109): one synchronous
`routematch` call, `(None, None)` when there is no match. -/
def directModeMatch (mapper : Mapper) (env : Environ) : Option RMatch × Option Route :=
  match mapper.routematch env with
  | some results => (some results.1, some results.2)
  | none => (none, none)

/-- Modelled from the spec: shared-state mode (middleware.py 94-102)
goes through `request_config()` from `routes.base`, which is not under
`src/`.  Per spec 4.2, assigning the environment to the shared context
triggers immediate recomputation of the match against the stored route
table, i.e. it yields the same match result as a direct `routematch`
call. -/
def sharedModeMatch (mapper : Mapper) (env : Environ) : Option RMatch × Option Route :=
  match mapper.routematch env with
  | some results => (some results.1, some results.2)
  | none => (none, none)

/-- The matching step (middleware.py 92-109), selecting shared or
direct mode on the `singleton` flag. -/
def matchStage (singleton : Bool) (mapper : Mapper) (env : Environ) :
    Option RMatch × Option Route :=
  if singleton then sharedModeMatch mapper env else directModeMatch mapper env

/-- Modelled from the spec: matching binds the route table's own
`environ` pointer (spec 4.2: "environment-setting must be done once at
the very start of each request ... removing the route-table's own
environment pointer after the inner application call returns"); the
binding code itself lives in `routes.base` / the mapper, outside
`src/`.  In Python the binding aliases the live request dict; only its
presence or absence matters to the claims below. -/
def bindEnviron (env : Environ) : Option Environ :=
  some env

/-- `if old_method: environ['REQUEST_METHOD'] = old_method`
(middleware.py 111-112).  Python truthiness: `None` and the empty
string are falsy. -/
def restoreStage (old_method : Option String) (env : Environ) : Environ :=
  match old_method with
  | some m => if m = "" then env else { env with REQUEST_METHOD := m }
  | none => env

/-- `if not match: match = {}` (middleware.py 114-115): `None` and the
empty dict are falsy. -/
def fixupMatch (m : Option RMatch) : RMatch :=
  match m with
  | none => []
  | some l => if l = [] then [] else l

/-- Publication of the three well-known keys (middleware.py 128-132):
`wsgiorg.routing_args = (url, match)`, `routes.route = route`,
`routes.url = url`. -/
def publishStage (url : URLGen) (mtch : RMatch) (route : Option Route)
    (env : Environ) : Environ :=
  { env with routing_args := some (url, mtch),
             routes_route := some route,
             routes_url := some url }

/-- `'_redirect_%s' % id(route)` (middleware.py 135). -/
def redirectName (r : Route) : String :=
  "_redirect_" ++ toString r.rid

/-- The `path_info` rewrite body (middleware.py 147-153): set
`PATH_INFO` to the remainder (`match.get('path_info') or ''`), ensure
a leading `/`, and extend `SCRIPT_NAME` by the `re.sub`-stripped
original path. -/
def pathInfoRewrite (mtch : RMatch) (env : Environ) : Environ :=
  let oldpath := env.PATH_INFO
  let newpath := (mtch.lookup "path_info").getD ""
  let p := if strStartsWith newpath "/" then newpath else "/" ++ newpath
  { env with PATH_INFO := p,
             SCRIPT_NAME := env.SCRIPT_NAME ++ reSubPathStrip newpath oldpath }

/-- `if self.path_info and 'path_info' in match:` (middleware.py 146). -/
def pathStage (enabled : Bool) (mtch : RMatch) (env : Environ) : Environ :=
  if enabled && (mtch.lookup "path_info").isSome then pathInfoRewrite mtch env
  else env

/-- `del self.mapper.environ` raises `AttributeError` when the
attribute is already gone (middleware.py 160). -/
def delEnvironAttr (b : Option Environ) : Except String (Option Environ) :=
  match b with
  | some _ => Except.ok none
  | none => Except.error "AttributeError"

/-- The cleanup `try: del self.mapper.environ except AttributeError:
pass` (middleware.py 159-162): best effort, absence tolerated. -/
def clearEnvironBinding (b : Option Environ) : Option Environ :=
  match delEnvironAttr b with
  | Except.ok b2 => b2
  | Except.error _ => b

/-- The tail of `__call__` after the redirect check (middleware.py
144-163): optional path rewrite, the inner application call, and the
binding cleanup.  When the application raises, the exception
propagates before the cleanup runs (there is no `finally` around
middleware.py 156-162). -/
def appPhase (mw : RoutesMiddleware) (mtch : RMatch) (env3 : Environ)
    (binding1 : Option Environ) (envFM : Environ)
    (old_method : Option String) : MWResult :=
  match mw.app (pathStage mw.path_info mtch env3) with
  | Except.ok resp =>
      { env := pathStage mw.path_info mtch env3,
        binding := clearEnvironBinding binding1,
        appCalled := true, response := Except.ok resp,
        envForMatch := envFM, oldMethodRecorded := old_method }
  | Except.error e =>
      { env := pathStage mw.path_info mtch env3,
        binding := binding1,
        appCalled := true, response := Except.error e,
        envForMatch := envFM, oldMethodRecorded := old_method }

/-- `old_method` and the environment after the override block
(middleware.py 55-90). -/
def omOf (mw : RoutesMiddleware) (c : Collab) (env : Environ) :
    Option String × Environ :=
  methodOverrideStage mw.use_method_override c env

/-- The match result `(match, route)` (middleware.py 92-109), computed
on the environment as mutated by the override block. -/
def mrOf (mw : RoutesMiddleware) (c : Collab) (env : Environ) :
    Option RMatch × Option Route :=
  matchStage mw.singleton mw.mapper (omOf mw c env).2

/-- The environment after the method restoration (middleware.py
111-112). -/
def env2Of (mw : RoutesMiddleware) (c : Collab) (env : Environ) : Environ :=
  restoreStage (omOf mw c env).1 (omOf mw c env).2

/-- The `match` dict after `if not match: match = {}` (middleware.py
114-115). -/
def mtchOf (mw : RoutesMiddleware) (c : Collab) (env : Environ) : RMatch :=
  fixupMatch (mrOf mw c env).1

/-- `url = URLGenerator(self.mapper, environ)` (middleware.py 128):
the fresh per-request generator, bound to the route table and the
current (restored) environment. -/
def urlOf (mw : RoutesMiddleware) (c : Collab) (env : Environ) : URLGen :=
  c.urlGenerator mw.mapper (env2Of mw c env)

/-- The environment right after the three keys are published
(middleware.py 128-132), before the redirect check. -/
def env3Of (mw : RoutesMiddleware) (c : Collab) (env : Environ) : Environ :=
  publishStage (urlOf mw c env) (mtchOf mw c env) (mrOf mw c env).2
    (env2Of mw c env)

/-- The environment handed to the wrapped application (middleware.py
146-156): `env3Of` with the optional `path_info` rewrite applied. -/
def env4Of (mw : RoutesMiddleware) (c : Collab) (env : Environ) : Environ :=
  pathStage mw.path_info (mtchOf mw c env) (env3Of mw c env)

/-- `RoutesMiddleware.__call__` (middleware.py 52-163), as the
composition of the stages above: method override, matching, method
restoration, match fixup, publication, then either the redirect
short-circuit (middleware.py 134-142) or the application phase. -/
def RoutesMiddleware.call (mw : RoutesMiddleware) (c : Collab)
    (env : Environ) : MWResult :=
  match (mrOf mw c env).2 with
  | some r =>
      if r.redirect then
        { env := env3Of mw c env,
          binding := bindEnviron (omOf mw c env).2,
          appCalled := false,
          response := Except.ok
            { status := r.redirect_status,
              headers := [("Content-Type", "text/plain; charset=utf8"),
                          ("Location",
                           urlOf mw c env (redirectName r) (mtchOf mw c env))],
              body := [] },
          envForMatch := (omOf mw c env).2,
          oldMethodRecorded := (omOf mw c env).1 }
      else
        appPhase mw (mtchOf mw c env) (env3Of mw c env)
          (bindEnviron (omOf mw c env).2) (omOf mw c env).2 (omOf mw c env).1
  | none =>
      appPhase mw (mtchOf mw c env) (env3Of mw c env)
        (bindEnviron (omOf mw c env).2) (omOf mw c env).2 (omOf mw c env).1

/- ## Concrete fixtures used by the witness theorems -/

/-- A trivial URL generator output, standing in for the opaque
generator. -/
def urlW : URLGen := fun name vars => "/gen/" ++ name ++ toString vars.length

/-- An opaque `URLGenerator` constructor fixture. -/
def urlGenCW : Mapper → Environ → URLGen := fun _ _ => urlW

/-- A webob GET parser fixture: the query string always parses to
`_method=put`. -/
def reqGETput : String → RMatch := fun _ => [("_method", "put")]

/-- A webob GET parser fixture: parsing yields no `_method` key. -/
def reqGETempty : String → RMatch := fun _ => [("x", "1")]

/-- A webob POST form parser fixture: the body always parses to
`_method=delete`. -/
def reqPOSTdelete : Environ → RMatch := fun _ => [("_method", "delete")]

/-- A webob POST form parser fixture yielding no `_method` field. -/
def reqPOSTempty : Environ → RMatch := fun _ => []

/-- A wrapped application that answers 200 with an empty body. -/
def appOkW : Environ → Except String WSGIResponse :=
  fun _ => Except.ok { status := "200 OK", headers := [], body := [] }

/-- A wrapped application that raises. -/
def appErrW : Environ → Except String WSGIResponse :=
  fun _ => Except.error "boom"

/-- A non-redirect route fixture. -/
def routeNR : Route := { rid := 1, redirect := false, redirect_status := "" }

/-- A redirect route fixture with status 302. -/
def routeRW : Route := { rid := 7, redirect := true, redirect_status := "302 Found" }

/-- A mapper that never matches. -/
def mapperNone : Mapper := { routematch := fun _ => none }

/-- A mapper that always matches the non-redirect route with a
`path_info` remainder of `a/b`. -/
def mapperPathW : Mapper :=
  { routematch := fun _ => some ([("path_info", "a/b"), ("controller", "blog")], routeNR) }

/-- A mapper that always matches the redirect route with variables
`{id: "7"}`. -/
def mapperRedW : Mapper :=
  { routematch := fun _ => some ([("id", "7")], routeRW) }

/-- Concrete test environment: a GET with `_method=put` in the query
string. -/
def envGetQ : Environ where
  REQUEST_METHOD := "GET"
  PATH_INFO := "/blog/a/b"
  SCRIPT_NAME := "/app"
  QUERY_STRING := some "_method=put&age=10"
  CONTENT_TYPE := none
  routing_args := none
  routes_route := none
  routes_url := none
  other := [("HTTP_HOST", "example.com")]

/-- Concrete test environment: a form POST with no `_method` in the
query string. -/
def envFormW : Environ where
  REQUEST_METHOD := "POST"
  PATH_INFO := "/x"
  SCRIPT_NAME := ""
  QUERY_STRING := some "a=1"
  CONTENT_TYPE := some "application/x-www-form-urlencoded; charset=UTF-8"
  routing_args := none
  routes_route := none
  routes_url := none
  other := [("HTTP_HOST", "example.com")]

/-- Concrete test environment: a form POST whose query string also
mentions `_method`. -/
def envPostQ : Environ := { envFormW with QUERY_STRING := some "_method=put&a=1" }

/-- Collaborator fixture: query strings parse to `_method=put`, form
bodies parse to nothing. -/
def collabPut : Collab where
  reqGET := reqGETput
  reqPOST := reqPOSTempty
  urlGenerator := urlGenCW

/-- Collaborator fixture: query strings parse without a `_method` key,
form bodies parse to `_method=delete`. -/
def collabForm : Collab where
  reqGET := reqGETempty
  reqPOST := reqPOSTdelete
  urlGenerator := urlGenCW

/-- Collaborator fixture: both parsers yield nothing. -/
def collabEmpty : Collab where
  reqGET := fun _ => []
  reqPOST := reqPOSTempty
  urlGenerator := urlGenCW

/-- Middleware fixture over the never-matching mapper. -/
def mwNoneW : RoutesMiddleware := { app := appOkW, mapper := mapperNone }

/-- Middleware fixture over the `path_info` mapper. -/
def mwPathW : RoutesMiddleware := { app := appOkW, mapper := mapperPathW }

/-- Middleware fixture over the redirect mapper. -/
def mwRedW : RoutesMiddleware := { app := appOkW, mapper := mapperRedW }

/-- Middleware fixture whose wrapped application raises. -/
def mwErrW : RoutesMiddleware := { app := appErrW, mapper := mapperNone }

/- ## Sanity checks of the embedding on concrete inputs -/

example : strContains "age=10&_method=put" "_method" = true := by decide

example : strContains "age=10" "_method" = false := by decide

example : is_form_post envFormW = true := by decide

example : is_form_post { envFormW with CONTENT_TYPE := some "text/plain" } = false := by
  decide

example : reSubPathStrip "a/b" "/blog/a/b" = "/blog" := by decide

example : reSubPathStrip "" "/blog/" = "/blog" := by decide

example : reSubPathStrip "a/b" "/zzz" = "/zzz" := by decide

/- ## Structural lemmas about the stages -/

/-- The override block either leaves everything untouched and records
nothing, or records exactly the original method and replaces the
method with some upper-cased parameter value. -/
lemma mo_cases (u : Bool) (c : Collab) (env : Environ) :
    methodOverrideStage u c env = (none, env) ∨
    ∃ v, methodOverrideStage u c env
        = (some env.REQUEST_METHOD, { env with REQUEST_METHOD := strUpper v }) := by
  unfold methodOverrideStage
  split
  · split
    · split
      · exact Or.inr ⟨_, rfl⟩
      · exact Or.inl rfl
    · split
      · split
        · exact Or.inr ⟨_, rfl⟩
        · exact Or.inl rfl
      · exact Or.inl rfl
  · exact Or.inl rfl

/-- Shared and direct mode compute the same match result. -/
lemma matchStage_eq (s : Bool) (mp : Mapper) (e : Environ) :
    matchStage s mp e = directModeMatch mp e := by
  cases s <;> rfl

/-- `mrOf` in terms of the raw `routematch` call. -/
lemma mrOf_eq (mw : RoutesMiddleware) (c : Collab) (env : Environ) :
    mrOf mw c env = directModeMatch mw.mapper (omOf mw c env).2 := by
  unfold mrOf
  exact matchStage_eq mw.singleton mw.mapper (omOf mw c env).2

lemma appPhase_env (mw : RoutesMiddleware) (mtch : RMatch) (env3 : Environ)
    (b : Option Environ) (fm : Environ) (o : Option String) :
    (appPhase mw mtch env3 b fm o).env = pathStage mw.path_info mtch env3 := by
  unfold appPhase
  cases mw.app (pathStage mw.path_info mtch env3) <;> rfl

lemma appPhase_appCalled (mw : RoutesMiddleware) (mtch : RMatch) (env3 : Environ)
    (b : Option Environ) (fm : Environ) (o : Option String) :
    (appPhase mw mtch env3 b fm o).appCalled = true := by
  unfold appPhase
  cases mw.app (pathStage mw.path_info mtch env3) <;> rfl

lemma appPhase_oldMethod (mw : RoutesMiddleware) (mtch : RMatch) (env3 : Environ)
    (b : Option Environ) (fm : Environ) (o : Option String) :
    (appPhase mw mtch env3 b fm o).oldMethodRecorded = o := by
  unfold appPhase
  cases mw.app (pathStage mw.path_info mtch env3) <;> rfl

lemma appPhase_envForMatch (mw : RoutesMiddleware) (mtch : RMatch) (env3 : Environ)
    (b : Option Environ) (fm : Environ) (o : Option String) :
    (appPhase mw mtch env3 b fm o).envForMatch = fm := by
  unfold appPhase
  cases mw.app (pathStage mw.path_info mtch env3) <;> rfl

lemma appPhase_response (mw : RoutesMiddleware) (mtch : RMatch) (env3 : Environ)
    (b : Option Environ) (fm : Environ) (o : Option String) :
    (appPhase mw mtch env3 b fm o).response
      = mw.app (pathStage mw.path_info mtch env3) := by
  unfold appPhase
  cases mw.app (pathStage mw.path_info mtch env3) <;> rfl

/-- The middleware's own result environment is the published one, with
the path rewrite applied on the non-redirect path. -/
lemma call_env_cases (mw : RoutesMiddleware) (c : Collab) (env : Environ) :
    (mw.call c env).env = env3Of mw c env ∨ (mw.call c env).env = env4Of mw c env := by
  unfold RoutesMiddleware.call
  split
  · split
    · exact Or.inl rfl
    · exact Or.inr (appPhase_env mw (mtchOf mw c env) (env3Of mw c env)
        (bindEnviron (omOf mw c env).2) (omOf mw c env).2 (omOf mw c env).1)
  · exact Or.inr (appPhase_env mw (mtchOf mw c env) (env3Of mw c env)
      (bindEnviron (omOf mw c env).2) (omOf mw c env).2 (omOf mw c env).1)

/-- The two ghost fields record the override block's outcome on every
path. -/
lemma call_ghost (mw : RoutesMiddleware) (c : Collab) (env : Environ) :
    (mw.call c env).oldMethodRecorded = (omOf mw c env).1
    ∧ (mw.call c env).envForMatch = (omOf mw c env).2 := by
  unfold RoutesMiddleware.call
  split
  · split
    · exact ⟨rfl, rfl⟩
    · exact ⟨appPhase_oldMethod mw (mtchOf mw c env) (env3Of mw c env)
          (bindEnviron (omOf mw c env).2) (omOf mw c env).2 (omOf mw c env).1,
        appPhase_envForMatch mw (mtchOf mw c env) (env3Of mw c env)
          (bindEnviron (omOf mw c env).2) (omOf mw c env).2 (omOf mw c env).1⟩
  · exact ⟨appPhase_oldMethod mw (mtchOf mw c env) (env3Of mw c env)
        (bindEnviron (omOf mw c env).2) (omOf mw c env).2 (omOf mw c env).1,
      appPhase_envForMatch mw (mtchOf mw c env) (env3Of mw c env)
        (bindEnviron (omOf mw c env).2) (omOf mw c env).2 (omOf mw c env).1⟩

/-- The restoration stage touches at most `REQUEST_METHOD`. -/
lemma env2Of_eq (mw : RoutesMiddleware) (c : Collab) (env : Environ) :
    env2Of mw c env
      = { env with REQUEST_METHOD := (env2Of mw c env).REQUEST_METHOD } := by
  unfold env2Of omOf
  rcases mo_cases mw.use_method_override c env with h | ⟨v, h⟩ <;> rw [h]
  · rfl
  · unfold restoreStage
    dsimp only
    split <;> rfl

lemma env2Of_fields (mw : RoutesMiddleware) (c : Collab) (env : Environ) :
    (env2Of mw c env).PATH_INFO = env.PATH_INFO
    ∧ (env2Of mw c env).SCRIPT_NAME = env.SCRIPT_NAME
    ∧ (env2Of mw c env).QUERY_STRING = env.QUERY_STRING
    ∧ (env2Of mw c env).CONTENT_TYPE = env.CONTENT_TYPE
    ∧ (env2Of mw c env).other = env.other := by
  rw [env2Of_eq mw c env]
  exact ⟨rfl, rfl, rfl, rfl, rfl⟩

/-- With a non-empty original method (as WSGI guarantees), the
environment after the restoration stage carries the original method,
whether or not an override occurred. -/
lemma env2Of_method (mw : RoutesMiddleware) (c : Collab) (env : Environ)
    (hWSGI : env.REQUEST_METHOD ≠ "") :
    (env2Of mw c env).REQUEST_METHOD = env.REQUEST_METHOD := by
  unfold env2Of omOf
  rcases mo_cases mw.use_method_override c env with h | ⟨v, h⟩ <;> rw [h]
  · rfl
  · unfold restoreStage
    dsimp only
    rw [if_neg hWSGI]

lemma pathStage_fields (b : Bool) (m : RMatch) (e : Environ) :
    (pathStage b m e).REQUEST_METHOD = e.REQUEST_METHOD
    ∧ (pathStage b m e).QUERY_STRING = e.QUERY_STRING
    ∧ (pathStage b m e).CONTENT_TYPE = e.CONTENT_TYPE
    ∧ (pathStage b m e).other = e.other
    ∧ (pathStage b m e).routing_args = e.routing_args
    ∧ (pathStage b m e).routes_route = e.routes_route
    ∧ (pathStage b m e).routes_url = e.routes_url := by
  unfold pathStage pathInfoRewrite
  split <;> exact ⟨rfl, rfl, rfl, rfl, rfl, rfl, rfl⟩

lemma pathStage_skip (b : Bool) (m : RMatch) (e : Environ)
    (h : (b && (m.lookup "path_info").isSome) = false) :
    pathStage b m e = e := by
  unfold pathStage
  rw [if_neg (by simp [h])]

/-- Field-level description of the middleware's result environment on
every path: method as restored, query string, content type and the
unrelated keys untouched, and the three published keys set. -/
lemma call_env_spec (mw : RoutesMiddleware) (c : Collab) (env : Environ) :
    (mw.call c env).env.REQUEST_METHOD = (env2Of mw c env).REQUEST_METHOD
    ∧ (mw.call c env).env.QUERY_STRING = env.QUERY_STRING
    ∧ (mw.call c env).env.CONTENT_TYPE = env.CONTENT_TYPE
    ∧ (mw.call c env).env.other = env.other
    ∧ (mw.call c env).env.routing_args = some (urlOf mw c env, mtchOf mw c env)
    ∧ (mw.call c env).env.routes_route = some (mrOf mw c env).2
    ∧ (mw.call c env).env.routes_url = some (urlOf mw c env) := by
  obtain ⟨_, _, hqs, hct, hot⟩ := env2Of_fields mw c env
  rcases call_env_cases mw c env with h | h <;> rw [h]
  · exact ⟨rfl, hqs, hct, hot, rfl, rfl, rfl⟩
  · obtain ⟨p1, p2, p3, p4, p5, p6, p7⟩ :=
      pathStage_fields mw.path_info (mtchOf mw c env) (env3Of mw c env)
    exact ⟨p1, p2.trans hqs, p3.trans hct, p4.trans hot, p5, p6, p7⟩

/-- Reduction of `call` on the redirect path. -/
lemma call_redirect (mw : RoutesMiddleware) (c : Collab) (env : Environ) (r : Route)
    (h : (mrOf mw c env).2 = some r) (hr : r.redirect = true) :
    mw.call c env =
      { env := env3Of mw c env,
        binding := bindEnviron (omOf mw c env).2,
        appCalled := false,
        response := Except.ok
          { status := r.redirect_status,
            headers := [("Content-Type", "text/plain; charset=utf8"),
                        ("Location",
                         urlOf mw c env (redirectName r) (mtchOf mw c env))],
            body := [] },
        envForMatch := (omOf mw c env).2,
        oldMethodRecorded := (omOf mw c env).1 } := by
  unfold RoutesMiddleware.call
  split
  · rename_i r2 heq
    rw [h] at heq
    cases heq
    rw [if_pos hr]
  · rename_i heq
    rw [h] at heq
    cases heq

/-- Reduction of `call` on the non-redirect path. -/
lemma call_nonredirect (mw : RoutesMiddleware) (c : Collab) (env : Environ)
    (h : ∀ r, (mrOf mw c env).2 = some r → r.redirect = false) :
    mw.call c env = appPhase mw (mtchOf mw c env) (env3Of mw c env)
      (bindEnviron (omOf mw c env).2) (omOf mw c env).2 (omOf mw c env).1 := by
  unfold RoutesMiddleware.call
  split
  · rename_i r heq
    rw [if_neg (by simp [h r heq])]
  · rfl

/- ## Claim theorems -/

/-- C1: For every request in which a method override was recorded, the
environment's request method is restored to the original method
immediately after route matching completes and before any branching on
the match result — `env2Of` (the restoration, middleware.py 111-112)
precedes the match fixup, the publication, the redirect check and the
path rewrite in `RoutesMiddleware.call` — so the environment the
middleware carries onward holds the original method regardless of
whether a match succeeded.  The hypothesis that the original method is
non-empty is the WSGI guarantee on `REQUEST_METHOD` (the code's
`if old_method:` truthiness test needs it). -/
theorem c1_method_restored (mw : RoutesMiddleware) (c : Collab) (env : Environ)
    (m : String) (hWSGI : env.REQUEST_METHOD ≠ "")
    (hrec : (omOf mw c env).1 = some m) :
    m = env.REQUEST_METHOD
    ∧ (env2Of mw c env).REQUEST_METHOD = env.REQUEST_METHOD
    ∧ (mw.call c env).env.REQUEST_METHOD = env.REQUEST_METHOD := by
  unfold omOf at hrec
  have hm : m = env.REQUEST_METHOD := by
    rcases mo_cases mw.use_method_override c env with h | ⟨v, h⟩
    · rw [h] at hrec
      simp at hrec
    · rw [h] at hrec
      exact (Option.some.inj hrec).symm
  have h2 := env2Of_method mw c env hWSGI
  exact ⟨hm, h2, (call_env_spec mw c env).1.trans h2⟩

/-- Witness for C1 at a concrete GET request carrying `_method=put` in
its query string. -/
theorem c1_witness :
    envGetQ.REQUEST_METHOD ≠ ""
    ∧ (omOf mwNoneW collabPut envGetQ).1 = some "GET"
    ∧ ("GET" = envGetQ.REQUEST_METHOD
       ∧ (env2Of mwNoneW collabPut envGetQ).REQUEST_METHOD = envGetQ.REQUEST_METHOD
       ∧ (mwNoneW.call collabPut envGetQ).env.REQUEST_METHOD
           = envGetQ.REQUEST_METHOD) :=
  ⟨by decide, by decide,
    c1_method_restored mwNoneW collabPut envGetQ "GET" (by decide) (by decide)⟩

/-- C8: On every request — matches, non-matches and redirect
short-circuits alike — a fresh URL generator bound to the route table
and the current (restored) environment is constructed (`urlOf`,
middleware.py 128), and the generator, the matched-variables mapping
and the route reference are published to the environment under the
well-known keys (`routes.url`, `wsgiorg.routing_args`, `routes.route`)
before the redirect check runs (`env3Of` is built at middleware.py
128-132, before the check at line 134, so the published keys are
present even in the redirect result). -/
theorem c8_publish_always (mw : RoutesMiddleware) (c : Collab) (env : Environ) :
    (mw.call c env).env.routes_url = some (urlOf mw c env)
    ∧ (mw.call c env).env.routing_args = some (urlOf mw c env, mtchOf mw c env)
    ∧ (mw.call c env).env.routes_route = some (mrOf mw c env).2 := by
  obtain ⟨_, _, _, _, h5, h6, h7⟩ := call_env_spec mw c env
  exact ⟨h7, h5, h6⟩

/-- C10: Frame property of the middleware's own mutations.  With a
WSGI-valid (non-empty) original method: the query string, content type
and every unrelated environment key are unchanged; the request method
in the environment the middleware hands onward equals the original
(it was only mutated temporarily, between override and restoration);
and unless the path-rewrite branch (path-rewriting enabled and
`path_info` among the matched variables) was taken, `PATH_INFO` and
`SCRIPT_NAME` are unchanged as well.  The three published keys are the
only remaining fields, covered by `c8_publish_always`'s statement
shape. -/
theorem c10_frame (mw : RoutesMiddleware) (c : Collab) (env : Environ)
    (hWSGI : env.REQUEST_METHOD ≠ "") :
    (mw.call c env).env.QUERY_STRING = env.QUERY_STRING
    ∧ (mw.call c env).env.CONTENT_TYPE = env.CONTENT_TYPE
    ∧ (mw.call c env).env.other = env.other
    ∧ (mw.call c env).env.REQUEST_METHOD = env.REQUEST_METHOD
    ∧ ((mw.path_info && ((mtchOf mw c env).lookup "path_info").isSome) = false →
        (mw.call c env).env.PATH_INFO = env.PATH_INFO
        ∧ (mw.call c env).env.SCRIPT_NAME = env.SCRIPT_NAME) := by
  obtain ⟨h1, h2, h3, h4, h5⟩ := env2Of_fields mw c env
  obtain ⟨m1, m2, m3, m4, _, _, _⟩ := call_env_spec mw c env
  refine ⟨m2, m3, m4, m1.trans (env2Of_method mw c env hWSGI), ?_⟩
  intro hcond
  rcases call_env_cases mw c env with h | h <;> rw [h]
  · exact ⟨h1, h2⟩
  · unfold env4Of
    rw [pathStage_skip mw.path_info (mtchOf mw c env) (env3Of mw c env) hcond]
    exact ⟨h1, h2⟩

/-- Witness for C10 at a concrete request with no match and no path
rewrite. -/
theorem c10_witness :
    envGetQ.REQUEST_METHOD ≠ ""
    ∧ ((mwNoneW.call collabPut envGetQ).env.QUERY_STRING = envGetQ.QUERY_STRING
       ∧ (mwNoneW.call collabPut envGetQ).env.CONTENT_TYPE = envGetQ.CONTENT_TYPE
       ∧ (mwNoneW.call collabPut envGetQ).env.other = envGetQ.other
       ∧ (mwNoneW.call collabPut envGetQ).env.REQUEST_METHOD
           = envGetQ.REQUEST_METHOD
       ∧ ((mwNoneW.path_info
            && ((mtchOf mwNoneW collabPut envGetQ).lookup "path_info").isSome) = false →
           (mwNoneW.call collabPut envGetQ).env.PATH_INFO = envGetQ.PATH_INFO
           ∧ (mwNoneW.call collabPut envGetQ).env.SCRIPT_NAME
               = envGetQ.SCRIPT_NAME)) :=
  ⟨by decide, c10_frame mwNoneW collabPut envGetQ (by decide)⟩

/-- C2: With method-override detection enabled, a missing query string
is read as the empty string without failing (`qsOf`, the embedded
`KeyError` fallback of middleware.py 61-68); and when the substring
`_method` occurs in the raw query string and the parsed query
parameters carry a `_method` key, the request method used for matching
(`envForMatch`, the environment handed to `routematch`) is that
parameter's upper-cased value, and the original method is recorded for
the later restoration. -/
theorem c2_query_override (mw : RoutesMiddleware) (c : Collab) (env : Environ)
    (v : String)
    (hu : mw.use_method_override = true)
    (hqs : strContains (qsOf env) "_method" = true)
    (hget : (c.reqGET (qsOf env)).lookup "_method" = some v) :
    (∀ e : Environ, e.QUERY_STRING = none → qsOf e = "")
    ∧ (mw.call c env).oldMethodRecorded = some env.REQUEST_METHOD
    ∧ ((mw.call c env).envForMatch).REQUEST_METHOD = strUpper v := by
  have hmo : methodOverrideStage mw.use_method_override c env
      = (some env.REQUEST_METHOD, { env with REQUEST_METHOD := strUpper v }) := by
    simp [methodOverrideStage, hu, hqs, hget]
  obtain ⟨hg1, hg2⟩ := call_ghost mw c env
  refine ⟨fun e he => by simp [qsOf, he], ?_, ?_⟩
  · rw [hg1]
    unfold omOf
    rw [hmo]
  · rw [hg2]
    unfold omOf
    rw [hmo]

/-- Witness for C2 at a concrete GET request with `_method=put` in the
query string. -/
theorem c2_witness :
    mwNoneW.use_method_override = true
    ∧ strContains (qsOf envGetQ) "_method" = true
    ∧ (collabPut.reqGET (qsOf envGetQ)).lookup "_method" = some "put"
    ∧ ((∀ e : Environ, e.QUERY_STRING = none → qsOf e = "")
       ∧ (mwNoneW.call collabPut envGetQ).oldMethodRecorded
           = some envGetQ.REQUEST_METHOD
       ∧ ((mwNoneW.call collabPut envGetQ).envForMatch).REQUEST_METHOD
           = strUpper "put") :=
  ⟨by decide, by decide, by decide,
    c2_query_override mwNoneW collabPut envGetQ "put"
      (by decide) (by decide) (by decide)⟩

/-- C3: With override detection enabled and no `_method` substring in
the query string, a POST whose content type — after discarding any
`';'`-suffixed parameters — is exactly one of the two form types
(`is_form_post`) has its form body parsed, and a `_method` field there
sets the method used for matching to its upper-cased value; the same
request with content type `text/plain` never triggers an override. -/
theorem c3_form_override (mw : RoutesMiddleware) (c : Collab) (env : Environ)
    (v : String)
    (hu : mw.use_method_override = true)
    (hqs : strContains (qsOf env) "_method" = false)
    (hpost : env.REQUEST_METHOD = "POST")
    (hform : is_form_post env = true)
    (hbody : (c.reqPOST env).lookup "_method" = some v) :
    (mw.call c env).oldMethodRecorded = some "POST"
    ∧ ((mw.call c env).envForMatch).REQUEST_METHOD = strUpper v
    ∧ methodOverrideStage mw.use_method_override c
        { env with CONTENT_TYPE := some "text/plain" }
      = (none, { env with CONTENT_TYPE := some "text/plain" }) := by
  have hmo : methodOverrideStage mw.use_method_override c env
      = (some env.REQUEST_METHOD, { env with REQUEST_METHOD := strUpper v }) := by
    simp [methodOverrideStage, hu, hqs, hpost, hform, hbody]
  obtain ⟨hg1, hg2⟩ := call_ghost mw c env
  have hfp : is_form_post { env with CONTENT_TYPE := some "text/plain" } = false := by
    rfl
  have hqs2 : strContains (qsOf { env with CONTENT_TYPE := some "text/plain" })
      "_method" = false := hqs
  refine ⟨?_, ?_, ?_⟩
  · rw [hg1]
    unfold omOf
    rw [hmo, hpost]
  · rw [hg2]
    unfold omOf
    rw [hmo]
  · simp [methodOverrideStage, hu, hqs2, hfp]

/-- Witness for C3 at a concrete form POST carrying `_method=delete`
in its body. -/
theorem c3_witness :
    mwNoneW.use_method_override = true
    ∧ strContains (qsOf envFormW) "_method" = false
    ∧ envFormW.REQUEST_METHOD = "POST"
    ∧ is_form_post envFormW = true
    ∧ (collabForm.reqPOST envFormW).lookup "_method" = some "delete"
    ∧ ((mwNoneW.call collabForm envFormW).oldMethodRecorded = some "POST"
       ∧ ((mwNoneW.call collabForm envFormW).envForMatch).REQUEST_METHOD
           = strUpper "delete"
       ∧ methodOverrideStage mwNoneW.use_method_override collabForm
           { envFormW with CONTENT_TYPE := some "text/plain" }
         = (none, { envFormW with CONTENT_TYPE := some "text/plain" })) :=
  ⟨by decide, by decide, by decide, by decide, by decide,
    c3_form_override mwNoneW collabForm envFormW "delete"
      (by decide) (by decide) (by decide) (by decide) (by decide)⟩

/-- C9: When the raw query string contains the substring `_method` but
the parsed query parameters carry no `_method` key, no override
happens at all — the override block returns the environment untouched
and records nothing — even for a POST with a qualifying form content
type whose parsed body does contain a `_method` field (the `elif` of
middleware.py 80 is never reached once line 70's substring test fired). -/
theorem c9_query_shadows_form (mw : RoutesMiddleware) (c : Collab) (env : Environ)
    (w : String)
    (hu : mw.use_method_override = true)
    (hqs : strContains (qsOf env) "_method" = true)
    (hget : (c.reqGET (qsOf env)).lookup "_method" = none)
    (_hpost : env.REQUEST_METHOD = "POST")
    (_hform : is_form_post env = true)
    (_hbody : (c.reqPOST env).lookup "_method" = some w) :
    methodOverrideStage mw.use_method_override c env = (none, env)
    ∧ (mw.call c env).oldMethodRecorded = none
    ∧ (mw.call c env).envForMatch = env := by
  have hmo : methodOverrideStage mw.use_method_override c env = (none, env) := by
    simp [methodOverrideStage, hu, hqs, hget]
  obtain ⟨hg1, hg2⟩ := call_ghost mw c env
  refine ⟨hmo, ?_, ?_⟩
  · rw [hg1]
    unfold omOf
    rw [hmo]
  · rw [hg2]
    unfold omOf
    rw [hmo]

/-- Witness for C9 at a concrete form POST whose query string mentions
`_method` but whose parsed query parameters lack it. -/
theorem c9_witness :
    mwNoneW.use_method_override = true
    ∧ strContains (qsOf envPostQ) "_method" = true
    ∧ (collabForm.reqGET (qsOf envPostQ)).lookup "_method" = none
    ∧ envPostQ.REQUEST_METHOD = "POST"
    ∧ is_form_post envPostQ = true
    ∧ (collabForm.reqPOST envPostQ).lookup "_method" = some "delete"
    ∧ (methodOverrideStage mwNoneW.use_method_override collabForm envPostQ
         = (none, envPostQ)
       ∧ (mwNoneW.call collabForm envPostQ).oldMethodRecorded = none
       ∧ (mwNoneW.call collabForm envPostQ).envForMatch = envPostQ) :=
  ⟨by decide, by decide, by decide, by decide, by decide, by decide,
    c9_query_shadows_form mwNoneW collabForm envPostQ "delete"
      (by decide) (by decide) (by decide) (by decide) (by decide) (by decide)⟩

/-- The anchored attempt succeeds on a decomposed path whose head part
has no newline. -/
lemma reSubTryAt_append (pre np : List Char) (h : '\n' ∉ pre) :
    reSubTryAt np (pre ++ '/' :: np) = some pre := by
  have hsuf : ('/' :: np) <:+ pre ++ '/' :: np := List.suffix_append pre ('/' :: np)
  have htake : (pre ++ '/' :: np).take ((pre ++ '/' :: np).length - ('/' :: np).length)
      = pre := by
    have hlen : (pre ++ '/' :: np).length - ('/' :: np).length = pre.length := by
      simp [List.length_append]
    rw [hlen]
    exact List.take_left pre ('/' :: np)
  simp only [reSubTryAt]
  rw [if_pos (decide_eq_true hsuf), htake, if_neg (by simp [h])]

/-- The full `re.sub` model strips the `'/' :: np` suffix whenever the
path decomposes that way and carries no newline. -/
lemma reSubPathStripL_append (pre np : List Char)
    (h : '\n' ∉ pre ++ '/' :: np) :
    reSubPathStripL np (pre ++ '/' :: np) = pre := by
  have hpre : '\n' ∉ pre := fun hc => h (List.mem_append_left _ hc)
  have hlast : ¬((pre ++ '/' :: np).getLast? = some '\n') := by
    intro hc
    exact h (List.mem_of_getLast?_eq_some hc)
  simp only [reSubPathStripL]
  rw [if_neg (fun hd => hlast (of_decide_eq_true hd)),
    reSubTryAt_append pre np hpre]

/-- String-level version: stripping the remainder plus its separating
slash from the end of the original path recovers the head part. -/
lemma reSubPathStrip_append (pre np : String)
    (h : '\n' ∉ (pre ++ "/" ++ np).data) :
    reSubPathStrip np (pre ++ "/" ++ np) = pre := by
  have hd : (pre ++ "/" ++ np).data = pre.data ++ '/' :: np.data := by
    simp [String.data_append]
  unfold reSubPathStrip
  rw [hd]
  rw [reSubPathStripL_append pre.data np.data (hd ▸ h)]

/-- C4: For every request whose matched route carries the redirect
flag, the middleware responds with the route's configured redirect
status, exactly the two headers `Content-Type: text/plain;
charset=utf8` and `Location` — the latter being the URL generator's
output for the route's synthetic name (`redirectName`) and the matched
variables — with an empty body, and the wrapped application is never
invoked (middleware.py 134-142 returns before line 156). -/
theorem c4_redirect_response (mw : RoutesMiddleware) (c : Collab) (env : Environ)
    (m : RMatch) (r : Route)
    (hm : mw.mapper.routematch (omOf mw c env).2 = some (m, r))
    (hr : r.redirect = true) :
    mtchOf mw c env = fixupMatch (some m)
    ∧ (mw.call c env).appCalled = false
    ∧ (mw.call c env).response = Except.ok
        { status := r.redirect_status,
          headers := [("Content-Type", "text/plain; charset=utf8"),
                      ("Location",
                       urlOf mw c env (redirectName r) (mtchOf mw c env))],
          body := [] } := by
  have h1 : (mrOf mw c env).1 = some m := by
    rw [mrOf_eq]
    unfold directModeMatch
    rw [hm]
  have h2 : (mrOf mw c env).2 = some r := by
    rw [mrOf_eq]
    unfold directModeMatch
    rw [hm]
  have hfix : mtchOf mw c env = fixupMatch (some m) := by
    unfold mtchOf
    rw [h1]
  refine ⟨hfix, ?_, ?_⟩ <;> rw [call_redirect mw c env r h2 hr]

/-- Witness for C4 at a concrete request matching the redirect route
with variables `{id: "7"}`. -/
theorem c4_witness :
    mwRedW.mapper.routematch (omOf mwRedW collabEmpty envGetQ).2
        = some ([("id", "7")], routeRW)
    ∧ routeRW.redirect = true
    ∧ (mtchOf mwRedW collabEmpty envGetQ = fixupMatch (some [("id", "7")])
       ∧ (mwRedW.call collabEmpty envGetQ).appCalled = false
       ∧ (mwRedW.call collabEmpty envGetQ).response = Except.ok
           { status := routeRW.redirect_status,
             headers := [("Content-Type", "text/plain; charset=utf8"),
                         ("Location",
                          urlOf mwRedW collabEmpty envGetQ (redirectName routeRW)
                            (mtchOf mwRedW collabEmpty envGetQ))],
             body := [] }) :=
  ⟨by decide, by decide,
    c4_redirect_response mwRedW collabEmpty envGetQ [("id", "7")] routeRW
      (by decide) (by decide)⟩

/-- C5: When path-remainder rewriting is enabled and a non-redirect
route matched with a `path_info` variable, the request path becomes
the remainder prefixed with `/` when not already so prefixed, and the
script/mount prefix is extended by the part of the original path
obtained by stripping the remainder plus its separating `/` from the
end (middleware.py 146-153).  The decomposition hypothesis fixes the
head part `pre`; the no-newline hypothesis reflects that `.` in the
source's regex does not match a newline. -/
theorem c5_path_rewrite (mw : RoutesMiddleware) (c : Collab) (env : Environ)
    (m : RMatch) (r : Route) (pre rem : String)
    (hpi : mw.path_info = true)
    (hm : mw.mapper.routematch (omOf mw c env).2 = some (m, r))
    (hred : r.redirect = false)
    (hlk : m.lookup "path_info" = some rem)
    (hdecomp : env.PATH_INFO = pre ++ "/" ++ rem)
    (hnl : '\n' ∉ env.PATH_INFO.data) :
    (mw.call c env).env.PATH_INFO
        = (if strStartsWith rem "/" then rem else "/" ++ rem)
    ∧ (mw.call c env).env.SCRIPT_NAME = env.SCRIPT_NAME ++ pre := by
  have h1 : (mrOf mw c env).1 = some m := by
    rw [mrOf_eq]
    unfold directModeMatch
    rw [hm]
  have h2 : (mrOf mw c env).2 = some r := by
    rw [mrOf_eq]
    unfold directModeMatch
    rw [hm]
  have hmne : m ≠ [] := by
    intro hE
    rw [hE] at hlk
    cases hlk
  have hmtch : mtchOf mw c env = m := by
    unfold mtchOf
    rw [h1]
    simp [fixupMatch, hmne]
  have hcall := call_nonredirect mw c env (fun r2 hr2 => by
    rw [h2] at hr2
    cases hr2
    exact hred)
  have henv : (mw.call c env).env
      = pathStage mw.path_info (mtchOf mw c env) (env3Of mw c env) := by
    rw [hcall]
    exact appPhase_env mw (mtchOf mw c env) (env3Of mw c env)
      (bindEnviron (omOf mw c env).2) (omOf mw c env).2 (omOf mw c env).1
  have hcond : (mw.path_info && ((mtchOf mw c env).lookup "path_info").isSome)
      = true := by
    rw [hpi, hmtch, hlk]
    rfl
  have h3p : (env3Of mw c env).PATH_INFO = env.PATH_INFO :=
    (env2Of_fields mw c env).1
  have h3s : (env3Of mw c env).SCRIPT_NAME = env.SCRIPT_NAME :=
    (env2Of_fields mw c env).2.1
  rw [henv]
  unfold pathStage
  rw [if_pos hcond]
  unfold pathInfoRewrite
  constructor
  · dsimp only
    rw [hmtch, hlk]
    rfl
  · dsimp only
    rw [hmtch, hlk, h3s, h3p, hdecomp]
    have hg : ((some rem).getD "" : String) = rem := rfl
    rw [hg, reSubPathStrip_append pre rem (hdecomp ▸ hnl)]

/-- Witness for C5: original path `/blog/a/b` with remainder `a/b`
yields path `/a/b` and prefix extension `/blog`. -/
theorem c5_witness :
    mwPathW.path_info = true
    ∧ mwPathW.mapper.routematch (omOf mwPathW collabEmpty envGetQ).2
        = some ([("path_info", "a/b"), ("controller", "blog")], routeNR)
    ∧ routeNR.redirect = false
    ∧ ([("path_info", "a/b"), ("controller", "blog")] : RMatch).lookup "path_info"
        = some "a/b"
    ∧ envGetQ.PATH_INFO = "/blog" ++ "/" ++ "a/b"
    ∧ '\n' ∉ envGetQ.PATH_INFO.data
    ∧ ((mwPathW.call collabEmpty envGetQ).env.PATH_INFO
         = (if strStartsWith "a/b" "/" then "a/b" else "/" ++ "a/b")
       ∧ (mwPathW.call collabEmpty envGetQ).env.SCRIPT_NAME
           = envGetQ.SCRIPT_NAME ++ "/blog") :=
  ⟨by decide, by decide, by decide, by decide, by decide, by decide,
    c5_path_rewrite mwPathW collabEmpty envGetQ
      [("path_info", "a/b"), ("controller", "blog")] routeNR "/blog" "a/b"
      (by decide) (by decide) (by decide) (by decide) (by decide) (by decide)⟩

/-- C6: When no route matches, the published variables mapping is the
empty mapping (present, not absent), the published route is none, no
error is raised (the middleware is a total function of the request),
and the wrapped application still runs and its response is returned
unchanged (middleware.py 114-119 and 128-156). -/
theorem c6_no_match (mw : RoutesMiddleware) (c : Collab) (env : Environ)
    (hm : mw.mapper.routematch (omOf mw c env).2 = none) :
    (mw.call c env).env.routing_args = some (urlOf mw c env, [])
    ∧ (mw.call c env).env.routes_route = some none
    ∧ (mw.call c env).appCalled = true
    ∧ (mw.call c env).response = mw.app ((mw.call c env).env) := by
  have h1 : (mrOf mw c env).1 = none := by
    rw [mrOf_eq]
    unfold directModeMatch
    rw [hm]
  have h2 : (mrOf mw c env).2 = none := by
    rw [mrOf_eq]
    unfold directModeMatch
    rw [hm]
  have hmtch : mtchOf mw c env = [] := by
    unfold mtchOf
    rw [h1]
    rfl
  have hcall := call_nonredirect mw c env (fun r2 hr2 => by
    rw [h2] at hr2
    cases hr2)
  obtain ⟨_, _, _, _, h5, h6, _⟩ := call_env_spec mw c env
  refine ⟨?_, ?_, ?_, ?_⟩
  · rw [h5, hmtch]
  · rw [h6, h2]
  · rw [hcall]
    exact appPhase_appCalled mw (mtchOf mw c env) (env3Of mw c env)
      (bindEnviron (omOf mw c env).2) (omOf mw c env).2 (omOf mw c env).1
  · rw [hcall]
    rw [appPhase_response mw (mtchOf mw c env) (env3Of mw c env)
      (bindEnviron (omOf mw c env).2) (omOf mw c env).2 (omOf mw c env).1]
    rw [appPhase_env mw (mtchOf mw c env) (env3Of mw c env)
      (bindEnviron (omOf mw c env).2) (omOf mw c env).2 (omOf mw c env).1]

/-- Witness for C6 at a concrete request the mapper does not match. -/
theorem c6_witness :
    mwNoneW.mapper.routematch (omOf mwNoneW collabEmpty envGetQ).2 = none
    ∧ ((mwNoneW.call collabEmpty envGetQ).env.routing_args
         = some (urlOf mwNoneW collabEmpty envGetQ, [])
       ∧ (mwNoneW.call collabEmpty envGetQ).env.routes_route = some none
       ∧ (mwNoneW.call collabEmpty envGetQ).appCalled = true
       ∧ (mwNoneW.call collabEmpty envGetQ).response
           = mwNoneW.app ((mwNoneW.call collabEmpty envGetQ).env)) :=
  ⟨by decide, c6_no_match mwNoneW collabEmpty envGetQ (by decide)⟩

/-- C7 (amended): For every request that reaches the wrapped
application, the route table's environment binding is cleared after a
*normal* return of the inner call, with a pre-existing absence of the
binding tolerated silently (`del` would raise `AttributeError`, which
is swallowed); when the inner call raises, the exception propagates
*without* the binding being cleared, because middleware.py 156-162 has
no `finally` around the application call. -/
theorem c7_cleanup_after_return (mw : RoutesMiddleware) (c : Collab) (env : Environ)
    (hcalled : (mw.call c env).appCalled = true) :
    (∀ resp, mw.app ((mw.call c env).env) = Except.ok resp →
        (mw.call c env).binding = none)
    ∧ (∀ e, mw.app ((mw.call c env).env) = Except.error e →
        (mw.call c env).binding = bindEnviron (omOf mw c env).2)
    ∧ delEnvironAttr none = Except.error "AttributeError"
    ∧ (∀ b, clearEnvironBinding b = none) := by
  have hnr : mw.call c env = appPhase mw (mtchOf mw c env) (env3Of mw c env)
      (bindEnviron (omOf mw c env).2) (omOf mw c env).2 (omOf mw c env).1 := by
    cases hmr : (mrOf mw c env).2 with
    | none =>
        exact call_nonredirect mw c env (fun r2 h2 => by
          rw [hmr] at h2
          cases h2)
    | some r =>
        rcases Bool.eq_false_or_eq_true r.redirect with hr | hr
        · rw [call_redirect mw c env r hmr hr] at hcalled
          cases hcalled
        · exact call_nonredirect mw c env (fun r2 h2 => by
            rw [hmr] at h2
            cases h2
            exact hr)
  have henv : (mw.call c env).env
      = pathStage mw.path_info (mtchOf mw c env) (env3Of mw c env) := by
    rw [hnr]
    exact appPhase_env mw (mtchOf mw c env) (env3Of mw c env)
      (bindEnviron (omOf mw c env).2) (omOf mw c env).2 (omOf mw c env).1
  refine ⟨?_, ?_, rfl, fun b => by cases b <;> rfl⟩
  · intro resp hresp
    rw [henv] at hresp
    rw [hnr]
    unfold appPhase
    rw [hresp]
    rfl
  · intro e herr
    rw [henv] at herr
    rw [hnr]
    unfold appPhase
    rw [herr]

/-- Counterexample to C7 as stated: a concrete request whose wrapped
application raises; the application was invoked, the failure
propagates, and the mapper's environment binding is *not* cleared
afterwards (it is still bound), contradicting "the environment binding
is cleared afterwards ... whether the inner call returns normally or
raises". -/
theorem c7_counterexample :
    (mwErrW.call collabEmpty envFormW).appCalled = true
    ∧ (mwErrW.call collabEmpty envFormW).response = Except.error "boom"
    ∧ (mwErrW.call collabEmpty envFormW).binding.isSome = true := by
  refine ⟨by decide, ?_, by decide⟩
  rfl

/-- Witness for the amended C7 at a concrete request whose wrapped
application returns normally. -/
theorem c7_witness :
    (mwNoneW.call collabEmpty envFormW).appCalled = true
    ∧ ((∀ resp, mwNoneW.app ((mwNoneW.call collabEmpty envFormW).env)
          = Except.ok resp →
          (mwNoneW.call collabEmpty envFormW).binding = none)
       ∧ (∀ e, mwNoneW.app ((mwNoneW.call collabEmpty envFormW).env)
            = Except.error e →
            (mwNoneW.call collabEmpty envFormW).binding
              = bindEnviron (omOf mwNoneW collabEmpty envFormW).2)
       ∧ delEnvironAttr none = Except.error "AttributeError"
       ∧ (∀ b, clearEnvironBinding b = none)) :=
  ⟨by decide, c7_cleanup_after_return mwNoneW collabEmpty envFormW (by decide)⟩
